import Mathlib

/-!
Shallow embedding of the feed-consumption dashboard (`src/app.py`) for
verification of its filter-state and reshaping logic.

Dates are modelled as integers (`pandas` dates are totally ordered; only
comparisons matter here).  Device identifiers are strings, exactly as in the
source.  Consumption values are rationals (the source parses them with
`pd.to_numeric`; only parse success/failure and pass-through matter here).
-/

namespace Feed

/-- A long-form record: one row of `df_melted` (columns 日付, デバイスID, 消費量)
after `to_numeric`/`dropna` (src/app.py lines 141-148). -/
structure Record where
  date : Int
  device_id : String
  value : Rat
  deriving DecidableEq

/-- The session state the script mutates: `st.session_state.start_date`,
`end_date`, `selected_devices`, `toggle_all_checkbox`. -/
structure SessionState where
  start_date : Int
  end_date : Int
  selected_devices : Finset String
  toggle_all_checkbox : Bool
  deriving DecidableEq

/-- The shape of `filtered_df` after the date-range branch (lines 181-194):
either the columnless `pd.DataFrame()` produced in the invalid branch
(line 184), or a long-form table carrying the 日付/デバイスID/消費量 columns. -/
inductive FilteredFrame
  | emptyFrame : FilteredFrame
  | table : List Record → FilteredFrame
  deriving DecidableEq

/-- Column access `filtered_df[デバイスID]` (line 197): on the columnless
frame of the invalid branch this raises `KeyError`. -/
def FilteredFrame.colDeviceId : FilteredFrame → Except String (List String)
  | .emptyFrame => .error "KeyError: deviceID column missing"
  | .table rs => .ok (rs.map (fun r => r.device_id))

/-- The rows a frame holds (the columnless frame holds none). -/
def FilteredFrame.rowsOf : FilteredFrame → List Record
  | .emptyFrame => []
  | .table rs => rs

/-- The valid-branch date filter (lines 191-194): keep rows with
start ≤ 日付 ≤ end, both endpoints inclusive. -/
def filterByDate (records : List Record) (startInput endInput : Int) : List Record :=
  records.filter (fun r => decide (startInput ≤ r.date) && decide (r.date ≤ endInput))

/-- Lines 181-194 as a whole: `filtered_df` is the columnless frame when
start > end, and the date-filtered table otherwise. -/
def computeFilteredFrame (records : List Record) (startInput endInput : Int) : FilteredFrame :=
  if startInput > endInput then .emptyFrame
  else .table (filterByDate records startInput endInput)

/-- The Device Catalog (line 197): the distinct デバイスID values of the
date-filtered rows.  The source keeps them as a sorted duplicate-free list;
only its set of members and its length are ever used, so a `Finset` is the
faithful view (its `card` equals the source list's `len`). -/
def deviceCatalog (filtered : List Record) : Finset String :=
  (filtered.map (fun r => r.device_id)).toFinset

/-- The selection clean-up (lines 207-210): keep only the selected devices
still present in the catalog. -/
def pruneSelection (catalog : Finset String) (sel : Finset String) : Finset String :=
  sel.filter (fun d => d ∈ catalog)

/-- `initial_toggle_all_value` (line 213):
`len(selected) == len(options) and len(options) > 0`. -/
def initialToggleAllValue (catalog sel : Finset String) : Bool :=
  (sel.card == catalog.card) && (catalog.card != 0)

/-- The valid-branch render pass over the session state (lines 186-217):
store the chosen dates, date-filter, recompute the catalog, prune the
selection, and resynchronise `toggle_all_checkbox` (lines 216-217 overwrite
the flag whenever it differs from the recomputed value). -/
def renderPass (records : List Record) (startInput endInput : Int) (s : SessionState) :
    SessionState × List Record :=
  let filtered := filterByDate records startInput endInput
  let catalog := deviceCatalog filtered
  let sel := pruneSelection catalog s.selected_devices
  let initFlag := initialToggleAllValue catalog sel
  let flag := if s.toggle_all_checkbox != initFlag then initFlag else s.toggle_all_checkbox
  ({ start_date := startInput, end_date := endInput,
     selected_devices := sel, toggle_all_checkbox := flag }, filtered)

/-- The whole script pass over lines 181-217: the invalid branch shows the
sidebar error and sets `filtered_df = pd.DataFrame()`, but execution then
reaches line 197, whose column access on the columnless frame raises
`KeyError`, aborting the render before the selection prune runs.  In the
valid branch the pass completes as `renderPass`. -/
def renderScript (records : List Record) (startInput endInput : Int) (s : SessionState) :
    Except String (SessionState × List Record) :=
  let s1 := if startInput > endInput then s
            else { s with start_date := startInput, end_date := endInput }
  let fdf := computeFilteredFrame records startInput endInput
  match fdf.colDeviceId with
  | .error e => .error e
  | .ok deviceCol =>
    let catalog := deviceCol.toFinset
    let sel := pruneSelection catalog s.selected_devices
    let initFlag := initialToggleAllValue catalog sel
    let flag := if s.toggle_all_checkbox != initFlag then initFlag else s.toggle_all_checkbox
    .ok ({ s1 with selected_devices := sel, toggle_all_checkbox := flag }, fdf.rowsOf)

/-- `on_select_all_toggle` (lines 25-37).  When the widget fires, Streamlit
has already written the new checkbox value into
`st.session_state.toggle_all_checkbox`; the callback then sets the selection
to the full current option list or to the empty set. -/
def on_select_all_toggle (catalog : Finset String) (checked : Bool) (s : SessionState) :
    SessionState :=
  let s1 := { s with toggle_all_checkbox := checked }
  if s1.toggle_all_checkbox then { s1 with selected_devices := catalog }
  else { s1 with selected_devices := (∅ : Finset String) }

/-- `on_individual_device_checkbox_change` (lines 39-55): add or discard the
device according to the new widget value, then resynchronise the aggregate
flag by comparing lengths with the current option list. -/
def on_individual_device_checkbox_change (catalog : Finset String) (device_id : String)
    (checked : Bool) (s : SessionState) : SessionState :=
  let sel := if checked then insert device_id s.selected_devices
             else s.selected_devices.erase device_id
  let flag := (sel.card == catalog.card) && (catalog.card != 0)
  { s with selected_devices := sel, toggle_all_checkbox := flag }

/-- A checkbox interaction: toggling the aggregate box or one device box. -/
inductive Event
  | toggleAll : Bool → Event
  | toggleDevice : String → Bool → Event
  deriving DecidableEq

/-- One full user interaction: the callback runs against the option list the
previous render stored in `st.session_state.filtered_device_options`, and
Streamlit then reruns the script before returning control to the user.
Checkbox events only exist after a successful render, i.e. under a valid
date range (theorems carry that hypothesis), where the rerun is `renderPass`. -/
def applyEvent (records : List Record) (startInput endInput : Int) (e : Event)
    (s : SessionState) : SessionState :=
  let catalog := deviceCatalog (filterByDate records startInput endInput)
  let s1 := match e with
    | .toggleAll checked => on_select_all_toggle catalog checked s
    | .toggleDevice d checked => on_individual_device_checkbox_change catalog d checked s
  (renderPass records startInput endInput s1).1

/-- A sequence of checkbox interactions, applied in order. -/
def applyEvents (records : List Record) (startInput endInput : Int) (es : List Event)
    (s : SessionState) : SessionState :=
  es.foldl (fun st e => applyEvent records startInput endInput e st) s

/-- The invariant of §3/§8 of the spec: the aggregate flag holds exactly when
the selection is the whole (non-empty) catalog. -/
def AggregateInvariant (catalog : Finset String) (s : SessionState) : Prop :=
  s.toggle_all_checkbox = true ↔ (s.selected_devices = catalog ∧ catalog ≠ ∅)

/-- A state the render pass leaves unchanged: exactly the states observable
after a completed render with the same data and date inputs. -/
def RenderConsistent (records : List Record) (startInput endInput : Int)
    (s : SessionState) : Prop :=
  (renderPass records startInput endInput s).1 = s

/-- `selected_devices_final` filtering (lines 240-247): with an empty
selection the plotted frame is set to the empty table; otherwise rows are
kept by `isin(selected)`. -/
def dfToPlot (filtered : List Record) (sel : Finset String) : List Record :=
  if sel = (∅ : Finset String) then []
  else filtered.filter (fun r => decide (r.device_id ∈ sel))

/-! ### Reshaping stage (lines 130-148)

The wide sheet rows arrive from `get_all_values()` as strings; line 138
additionally forces the device columns to `str`, so every cell value is a
string before the melt.  The device identifiers are the column names of the
wide table and are passed through the melt verbatim (`var_name=デバイスID`),
never parsed as numbers; only the 消費量 cell values go through
`pd.to_numeric(errors=coerce)` followed by `dropna`. -/

/-- One wide row: a date plus one string cell per device column. -/
structure WideRow where
  date : Int
  values : List String
  deriving DecidableEq

/-- The wide table: device column names plus rows. -/
structure WideTable where
  deviceCols : List String
  rows : List WideRow
  deriving DecidableEq

/-- One melted row before numeric conversion: (日付, デバイスID, raw value). -/
structure LongRow where
  date : Int
  device_id : String
  value : String
  deriving DecidableEq

/-- `df.melt(id_vars=[日付], value_vars=device_columns, ...)` (line 141):
stack the value columns one after another, pairing each cell with its row's
date and its column's name. -/
def meltCols : Nat → List String → List WideRow → List LongRow
  | _, [], _ => []
  | i, c :: cs, rows =>
    rows.map (fun r => { date := r.date, device_id := c, value := r.values.getD i "" })
      ++ meltCols (i + 1) cs rows

/-- The melt of a wide table. -/
def melt (t : WideTable) : List LongRow :=
  meltCols 0 t.deviceCols t.rows

/-- The digits of a numeral read as a natural number. -/
def digitsToNat (l : List Char) : Nat :=
  l.foldl (fun a c => 10 * a + (c.toNat - 48)) 0

/-- `pd.to_numeric(errors=coerce)` on a string cell (line 147): an optional
sign, a decimal numeral with an optional fractional part; anything else
becomes the missing marker `none` (NaN). -/
def parseNumeric (str : String) : Option Rat :=
  let cs := str.toList
  let signed : Bool × List Char :=
    match cs with
    | List.cons c t =>
      if c = '-' then (true, t)
      else if c = '+' then (false, t)
      else (false, List.cons c t)
    | List.nil => (false, List.nil)
  let neg := signed.1
  let body := signed.2
  let intPart := body.takeWhile Char.isDigit
  let rest := body.dropWhile Char.isDigit
  let mag : Option Rat :=
    match rest with
    | List.nil => if intPart.isEmpty then none else some ((digitsToNat intPart : Nat) : Rat)
    | List.cons c frac =>
      if c = '.' ∧ frac.all Char.isDigit ∧ ¬ (intPart.isEmpty ∧ frac.isEmpty) then
        some (((digitsToNat intPart : Nat) : Rat)
          + ((digitsToNat frac : Nat) : Rat) / ((10 : Rat) ^ frac.length))
      else none
  mag.map (fun m => if neg then -m else m)

/-- Numeric conversion of one melted row: `some` record when the value
parses, `none` (a dropped row) otherwise. -/
def toRecord (lr : LongRow) : Option Record :=
  (parseNumeric lr.value).map
    (fun v => { date := lr.date, device_id := lr.device_id, value := v })

/-- Lines 141-148 as a whole: melt, convert 消費量 with `to_numeric`, and
drop the rows whose value did not parse. -/
def df_melted (t : WideTable) : List Record :=
  (melt t).filterMap toRecord

/-- The wide row of the §8 scenario: `[2024-01-01, "10", "bad"]` with device
columns `[devA, devB]`. -/
def scenarioWide : WideTable :=
  { deviceCols := ["devA", "devB"],
    rows := [{ date := 20240101, values := ["10", "bad"] }] }

/-- What the presentation branch does (lines 249-254 and below). -/
inductive RenderOutcome
  | promptSelectDevice
  | noMatchingData
  | charts : List Record → RenderOutcome
  deriving DecidableEq

/-- Lines 249-254: empty plot frame with no device selected shows the
informational prompt; empty with devices selected warns; otherwise charts. -/
def renderOutcome (filtered : List Record) (sel : Finset String) : RenderOutcome :=
  let d := dfToPlot filtered sel
  if d.isEmpty then
    if sel = (∅ : Finset String) then .promptSelectDevice else .noMatchingData
  else .charts d

/-- Deciding render-consistency is deciding an equality of states. -/
instance (records : List Record) (startInput endInput : Int) (s : SessionState) :
    Decidable (RenderConsistent records startInput endInput s) := by
  unfold RenderConsistent; infer_instance

/-! ### Helper lemmas -/

theorem bool_resync (b c : Bool) : (if b != c then c else b) = c := by
  cases b <;> cases c <;> rfl

theorem pruneSelection_mem (catalog sel : Finset String) (d : String) :
    d ∈ pruneSelection catalog sel ↔ d ∈ sel ∧ d ∈ catalog := by
  simp [pruneSelection]

theorem pruneSelection_subset_catalog (catalog sel : Finset String) :
    pruneSelection catalog sel ⊆ catalog := by
  intro d hd
  exact ((pruneSelection_mem catalog sel d).mp hd).2

theorem pruneSelection_of_subset {catalog sel : Finset String} (h : sel ⊆ catalog) :
    pruneSelection catalog sel = sel := by
  ext d
  rw [pruneSelection_mem]
  exact ⟨fun hd => hd.1, fun hd => ⟨hd, h hd⟩⟩

theorem initialToggleAllValue_eq_true {catalog sel : Finset String} (h : sel ⊆ catalog) :
    initialToggleAllValue catalog sel = true ↔ (sel = catalog ∧ catalog ≠ ∅) := by
  rw [initialToggleAllValue]
  simp only [Bool.and_eq_true, beq_iff_eq, bne_iff_ne, ne_eq]
  constructor
  · rintro ⟨hcard, hne⟩
    have hsel : sel = catalog := Finset.eq_of_subset_of_card_le h (le_of_eq hcard.symm)
    exact ⟨hsel, fun hcat => hne (by rw [hcat]; exact Finset.card_empty)⟩
  · rintro ⟨hsel, hne⟩
    subst hsel
    exact ⟨rfl, fun hzero => hne (Finset.card_eq_zero.mp hzero)⟩

theorem renderPass_fst (records : List Record) (startInput endInput : Int) (s : SessionState) :
    (renderPass records startInput endInput s).1 =
      { start_date := startInput
        end_date := endInput
        selected_devices :=
          pruneSelection (deviceCatalog (filterByDate records startInput endInput))
            s.selected_devices
        toggle_all_checkbox :=
          initialToggleAllValue (deviceCatalog (filterByDate records startInput endInput))
            (pruneSelection (deviceCatalog (filterByDate records startInput endInput))
              s.selected_devices) } := by
  simp [renderPass, bool_resync]

theorem renderPass_snd (records : List Record) (startInput endInput : Int) (s : SessionState) :
    (renderPass records startInput endInput s).2 = filterByDate records startInput endInput := rfl

theorem renderScript_valid (records : List Record) (startInput endInput : Int)
    (s : SessionState) (h : startInput ≤ endInput) :
    renderScript records startInput endInput s
      = Except.ok (renderPass records startInput endInput s) := by
  have hlt : ¬ startInput > endInput := not_lt.mpr h
  simp [renderScript, computeFilteredFrame, hlt, FilteredFrame.colDeviceId,
    FilteredFrame.rowsOf, renderPass, deviceCatalog]

theorem renderScript_invalid (records : List Record) (startInput endInput : Int)
    (s : SessionState) (h : startInput > endInput) :
    renderScript records startInput endInput s
      = Except.error "KeyError: deviceID column missing" := by
  simp [renderScript, computeFilteredFrame, h, FilteredFrame.colDeviceId]

theorem renderPass_invariant (records : List Record) (startInput endInput : Int)
    (s : SessionState) :
    AggregateInvariant (deviceCatalog (filterByDate records startInput endInput))
      (renderPass records startInput endInput s).1 := by
  rw [AggregateInvariant, renderPass_fst]
  exact initialToggleAllValue_eq_true (pruneSelection_subset_catalog _ _)

theorem meltCols_device_mem (i : Nat) (cs : List String) (rows : List WideRow)
    (lr : LongRow) (h : lr ∈ meltCols i cs rows) : lr.device_id ∈ cs := by
  induction cs generalizing i with
  | nil => simp [meltCols] at h
  | cons c cs ih =>
    rw [meltCols] at h
    rcases List.mem_append.mp h with h1 | h2
    · rcases List.mem_map.mp h1 with ⟨r, _, hr⟩
      rw [← hr]
      exact List.mem_cons_self c cs
    · exact List.mem_cons_of_mem c (ih (i + 1) h2)

theorem df_melted_mem {t : WideTable} {r : Record} (h : r ∈ df_melted t) :
    ∃ lr, lr ∈ melt t ∧ lr.date = r.date ∧ lr.device_id = r.device_id ∧
      parseNumeric lr.value = some r.value := by
  rw [df_melted] at h
  rcases List.mem_filterMap.mp h with ⟨lr, hlr, htr⟩
  rw [toRecord] at htr
  rcases Option.map_eq_some'.mp htr with ⟨v, hv, hrec⟩
  subst hrec
  exact ⟨lr, hlr, rfl, rfl, hv⟩

/-! ### Claim theorems -/

/-- Data and state for the invalid-date-range evaluation: one loaded record
for device A, a prior selection of A. -/
def invalidRangeRecords : List Record :=
  [{ date := 20240101, device_id := "A", value := 10 }]

/-- The session state before the invalid-range interaction. -/
def invalidRangeState : SessionState :=
  { start_date := 20240101
    end_date := 20240101
    selected_devices := {"A"}
    toggle_all_checkbox := true }

/-- Claim C2 (code bug): with start 2024-01-02 > end 2024-01-01 the script
shows the sidebar error and sets `filtered_df = pd.DataFrame()` (the
columnless frame), but then line 197 accesses the デバイスID column of that
frame and raises `KeyError`, aborting the render.  The render therefore ends
in a thrown fault, not in the explicit invalid-range outcome the claim
describes (the prune at lines 207-210 is never reached, so the stored
selection happens to survive only because the script crashed first). -/
theorem c2_invalid_range_raises_keyerror :
    computeFilteredFrame invalidRangeRecords 20240102 20240101 = FilteredFrame.emptyFrame ∧
    renderScript invalidRangeRecords 20240102 20240101 invalidRangeState
      = Except.error "KeyError: deviceID column missing" := by
  constructor
  · rfl
  · rfl

/-- Claim C7: the reshaping stage passes the device identifiers (the wide
table's column names) through the melt verbatim as opaque strings, keeps a
melted row exactly when its value cell parses numerically (dropping every
non-numeric or unparseable row), and on the §8 scenario row
`[2024-01-01, "10", "bad"]` with device columns `[devA, devB]` produces
exactly the single long row (2024-01-01, devA, 10). -/
theorem c7_reshape_opaque_ids_drop_unparseable :
    (∀ t : WideTable, ∀ r ∈ df_melted t, r.device_id ∈ t.deviceCols) ∧
    (∀ t : WideTable, ∀ r ∈ df_melted t,
      ∃ lr, lr ∈ melt t ∧ lr.date = r.date ∧ lr.device_id = r.device_id ∧
        parseNumeric lr.value = some r.value) ∧
    df_melted scenarioWide
      = [{ date := 20240101, device_id := "devA", value := (10 : Rat) }] := by
  refine ⟨?_, ?_, by decide⟩
  · intro t r hr
    rcases df_melted_mem hr with ⟨lr, hlr, _, hdev, _⟩
    rw [← hdev]
    exact meltCols_device_mem 0 t.deviceCols t.rows lr hlr
  · intro t r hr
    exact df_melted_mem hr

/-- Closed witness for C7 at the §8 scenario: the surviving record's device
identifier is one of the wide table's column names. -/
theorem c7_witness :
    ({ date := 20240101, device_id := "devA", value := (10 : Rat) } : Record).device_id
      ∈ scenarioWide.deviceCols :=
  c7_reshape_opaque_ids_drop_unparseable.1 scenarioWide
    { date := 20240101, device_id := "devA", value := (10 : Rat) } (by decide)

/-- Claim C9: for a valid range (start ≤ end) the date filter of lines
191-194 keeps a row exactly when start ≤ 日付 ≤ end — both endpoints
inclusive. -/
theorem c9_date_filter_inclusive (records : List Record) (startInput endInput : Int)
    (h : startInput ≤ endInput) (r : Record) :
    r ∈ filterByDate records startInput endInput
      ↔ (r ∈ records ∧ startInput ≤ r.date ∧ r.date ≤ endInput) := by
  simp [filterByDate, List.mem_filter, and_assoc]

/-- Closed witness for C9: a record dated exactly on the start endpoint is
kept. -/
theorem c9_witness :
    ({ date := 20240101, device_id := "A", value := 10 } : Record)
        ∈ filterByDate invalidRangeRecords 20240101 20240102
      ↔ (({ date := 20240101, device_id := "A", value := 10 } : Record)
            ∈ invalidRangeRecords
          ∧ (20240101 : Int) ≤ 20240101 ∧ (20240101 : Int) ≤ 20240102) :=
  c9_date_filter_inclusive invalidRangeRecords 20240101 20240102 (by decide)
    { date := 20240101, device_id := "A", value := 10 }

/-- Claim C10: with an empty selection the plotted frame is the empty table
(lines 244-245) — not a default to all devices — and the presentation branch
shows the informational device-selection prompt (lines 249-252). -/
theorem c10_empty_selection_plots_nothing (filtered : List Record) :
    dfToPlot filtered (∅ : Finset String) = [] ∧
    renderOutcome filtered (∅ : Finset String) = RenderOutcome.promptSelectDevice := by
  constructor
  · simp [dfToPlot]
  · simp [renderOutcome, dfToPlot]

theorem renderScript_ok_elim {records : List Record} {startInput endInput : Int}
    {s s' : SessionState} {filtered : List Record}
    (h : renderScript records startInput endInput s = Except.ok (s', filtered)) :
    s' = (renderPass records startInput endInput s).1
      ∧ filtered = filterByDate records startInput endInput := by
  by_cases hle : startInput ≤ endInput
  · rw [renderScript_valid records startInput endInput s hle] at h
    injection h with h'
    constructor
    · exact (congrArg Prod.fst h').symm
    · rw [← renderPass_snd records startInput endInput s]
      exact (congrArg Prod.snd h').symm
  · rw [renderScript_invalid records startInput endInput s (lt_of_not_le hle)] at h
    exact absurd h (by simp)

theorem applyEvent_invariant (records : List Record) (startInput endInput : Int)
    (e : Event) (s : SessionState) :
    AggregateInvariant (deviceCatalog (filterByDate records startInput endInput))
      (applyEvent records startInput endInput e s) := by
  cases e <;> exact renderPass_invariant records startInput endInput _

/-- Claim C1: a checkbox callback always triggers a script rerun before
control returns to the user, and after every `toggle_all` / `toggle_device`
interaction in any sequence the aggregate flag holds exactly when the
selection equals the (non-empty) current Device Catalog.  The valid-range
hypothesis records that checkbox interactions only exist after a completed
render. -/
theorem c1_callback_sequences_keep_aggregate_invariant (records : List Record)
    (startInput endInput : Int) (h : startInput ≤ endInput) (s0 : SessionState)
    (es : List Event) (e : Event) :
    AggregateInvariant (deviceCatalog (filterByDate records startInput endInput))
      (applyEvents records startInput endInput (es ++ [e]) s0) := by
  rw [applyEvents, List.foldl_append, List.foldl_cons, List.foldl_nil]
  exact applyEvent_invariant records startInput endInput e _

/-- Closed witness for C1: the invariant after toggling "select all" on. -/
theorem c1_witness :
    AggregateInvariant (deviceCatalog (filterByDate invalidRangeRecords 20240101 20240102))
      (applyEvents invalidRangeRecords 20240101 20240102 ([] ++ [Event.toggleAll true])
        invalidRangeState) :=
  c1_callback_sequences_keep_aggregate_invariant invalidRangeRecords 20240101 20240102
    (by decide) invalidRangeState [] (Event.toggleAll true)

theorem applyEvent_toggleAll (records : List Record) (startInput endInput : Int)
    (checked : Bool) (s : SessionState) :
    applyEvent records startInput endInput (Event.toggleAll checked) s =
      { start_date := startInput
        end_date := endInput
        selected_devices :=
          if checked then deviceCatalog (filterByDate records startInput endInput)
          else (∅ : Finset String)
        toggle_all_checkbox :=
          initialToggleAllValue (deviceCatalog (filterByDate records startInput endInput))
            (if checked then deviceCatalog (filterByDate records startInput endInput)
             else (∅ : Finset String)) } := by
  cases checked with
  | false =>
    show (renderPass records startInput endInput
        { s with toggle_all_checkbox := false, selected_devices := (∅ : Finset String) }).1 = _
    rw [renderPass_fst]
    simp [pruneSelection_of_subset (Finset.empty_subset _)]
  | true =>
    show (renderPass records startInput endInput
        { s with toggle_all_checkbox := true,
                 selected_devices := deviceCatalog (filterByDate records startInput endInput) }).1
      = _
    rw [renderPass_fst]
    simp [pruneSelection_of_subset (Finset.Subset.refl _)]

/-- Claim C5: `toggle_all(checked)` makes the selection exactly the current
Device Catalog when checked and empty when unchecked, and the interaction is
idempotent: repeating it with the same argument leaves the whole state
unchanged. -/
theorem c5_toggle_all_sets_selection_and_idempotent (records : List Record)
    (startInput endInput : Int) (h : startInput ≤ endInput) (checked : Bool)
    (s : SessionState) :
    ((applyEvent records startInput endInput (Event.toggleAll checked) s).selected_devices
        = (if checked then deviceCatalog (filterByDate records startInput endInput)
           else (∅ : Finset String))) ∧
    applyEvent records startInput endInput (Event.toggleAll checked)
        (applyEvent records startInput endInput (Event.toggleAll checked) s)
      = applyEvent records startInput endInput (Event.toggleAll checked) s := by
  constructor
  · rw [applyEvent_toggleAll]
  · rw [applyEvent_toggleAll records startInput endInput checked s,
      applyEvent_toggleAll records startInput endInput checked]

/-- Closed witness for C5 with "select all" checked over one device. -/
theorem c5_witness :
    ((applyEvent invalidRangeRecords 20240101 20240101 (Event.toggleAll true)
        invalidRangeState).selected_devices
      = (if true then deviceCatalog (filterByDate invalidRangeRecords 20240101 20240101)
         else (∅ : Finset String))) ∧
    applyEvent invalidRangeRecords 20240101 20240101 (Event.toggleAll true)
        (applyEvent invalidRangeRecords 20240101 20240101 (Event.toggleAll true)
          invalidRangeState)
      = applyEvent invalidRangeRecords 20240101 20240101 (Event.toggleAll true)
          invalidRangeState :=
  c5_toggle_all_sets_selection_and_idempotent invalidRangeRecords 20240101 20240101
    (by decide) true invalidRangeState

theorem renderConsistent_elim {records : List Record} {startInput endInput : Int}
    {s : SessionState} (hs : RenderConsistent records startInput endInput s) :
    s.start_date = startInput ∧ s.end_date = endInput ∧
    pruneSelection (deviceCatalog (filterByDate records startInput endInput))
        s.selected_devices = s.selected_devices ∧
    initialToggleAllValue (deviceCatalog (filterByDate records startInput endInput))
        s.selected_devices = s.toggle_all_checkbox := by
  rw [RenderConsistent, renderPass_fst] at hs
  have h1 := congrArg SessionState.start_date hs
  have h2 := congrArg SessionState.end_date hs
  have h3 := congrArg SessionState.selected_devices hs
  have h4 := congrArg SessionState.toggle_all_checkbox hs
  dsimp only at h1 h2 h3 h4
  rw [h3] at h4
  exact ⟨h1.symm, h2.symm, h3, h4⟩

theorem applyEvent_toggleDevice (records : List Record) (startInput endInput : Int)
    (d : String) (checked : Bool) (s : SessionState) :
    applyEvent records startInput endInput (Event.toggleDevice d checked) s =
      { start_date := startInput
        end_date := endInput
        selected_devices :=
          pruneSelection (deviceCatalog (filterByDate records startInput endInput))
            (if checked then insert d s.selected_devices else s.selected_devices.erase d)
        toggle_all_checkbox :=
          initialToggleAllValue (deviceCatalog (filterByDate records startInput endInput))
            (pruneSelection (deviceCatalog (filterByDate records startInput endInput))
              (if checked then insert d s.selected_devices
               else s.selected_devices.erase d)) } := by
  show (renderPass records startInput endInput
      (on_individual_device_checkbox_change
        (deviceCatalog (filterByDate records startInput endInput)) d checked s)).1 = _
  rw [renderPass_fst]
  rfl

/-- Claim C6: a `toggle_device(device_id, checked)` interaction adds or
removes exactly that device from the selection when the device is in the
current Device Catalog, and leaves the whole state unchanged when it is not
(the callback does not guard membership itself, but the rerun's prune undoes
any out-of-catalog insertion before control returns; moreover the checkbox
of an out-of-catalog device is never rendered, so such a call cannot arise
in the UI).  `RenderConsistent` states that `s` is a state an earlier
completed render produced, i.e. a reachable state. -/
theorem c6_toggle_device_adds_removes_or_noop (records : List Record)
    (startInput endInput : Int) (h : startInput ≤ endInput) (d : String) (checked : Bool)
    (s : SessionState) (hs : RenderConsistent records startInput endInput s) :
    ((d ∈ deviceCatalog (filterByDate records startInput endInput) →
        (applyEvent records startInput endInput
            (Event.toggleDevice d checked) s).selected_devices
          = (if checked then insert d s.selected_devices
             else s.selected_devices.erase d)) ∧
     (d ∉ deviceCatalog (filterByDate records startInput endInput) →
        applyEvent records startInput endInput (Event.toggleDevice d checked) s = s)) := by
  obtain ⟨h1, h2, h3, h4⟩ := renderConsistent_elim hs
  have hsub : s.selected_devices ⊆ deviceCatalog (filterByDate records startInput endInput) :=
    h3 ▸ pruneSelection_subset_catalog _ _
  constructor
  · intro hd
    rw [applyEvent_toggleDevice]
    refine pruneSelection_of_subset ?_
    cases checked with
    | true =>
      simp only [if_true]
      exact Finset.insert_subset_iff.mpr ⟨hd, hsub⟩
    | false =>
      simp only [Bool.false_eq_true, if_false]
      exact (Finset.erase_subset d s.selected_devices).trans hsub
  · intro hd
    rw [applyEvent_toggleDevice]
    have hprune : pruneSelection (deviceCatalog (filterByDate records startInput endInput))
        (if checked then insert d s.selected_devices else s.selected_devices.erase d)
        = s.selected_devices := by
      cases checked with
      | true =>
        simp only [if_true]
        ext x
        rw [pruneSelection_mem, Finset.mem_insert]
        constructor
        · rintro ⟨hx | hx, hxc⟩
          · exact absurd (hx ▸ hxc) hd
          · exact hx
        · intro hx
          exact ⟨Or.inr hx, hsub hx⟩
      | false =>
        simp only [Bool.false_eq_true, if_false]
        rw [Finset.erase_eq_of_not_mem (fun hds => hd (hsub hds)), h3]
    rw [hprune, h4, ← h1, ← h2]

/-- Closed witness for C6: unchecking device A removes exactly A from the
selection, starting from a reachable full-selection state. -/
theorem c6_witness :
    (applyEvent invalidRangeRecords 20240101 20240101 (Event.toggleDevice "A" false)
        invalidRangeState).selected_devices
      = (if false then insert "A" invalidRangeState.selected_devices
         else invalidRangeState.selected_devices.erase "A") :=
  (c6_toggle_device_adds_removes_or_noop invalidRangeRecords 20240101 20240101
      (by decide) "A" false invalidRangeState (by decide)).1 (by decide)

/-- Claim C8: whenever the render prologue completes (lines 196-217), the
selection it stores is the pruned one and the aggregate flag is recomputed
from it — true exactly when the pruned selection equals the non-empty
Device Catalog — for every incoming state, including states whose stored
flag is inconsistent. -/
theorem c8_render_prologue_recomputes_flag (records : List Record)
    (startInput endInput : Int) (s s' : SessionState) (filtered : List Record)
    (h : renderScript records startInput endInput s = Except.ok (s', filtered)) :
    s'.selected_devices = pruneSelection (deviceCatalog filtered) s.selected_devices ∧
    (s'.toggle_all_checkbox = true
      ↔ (s'.selected_devices = deviceCatalog filtered ∧ deviceCatalog filtered ≠ ∅)) := by
  obtain ⟨hs', hf⟩ := renderScript_ok_elim h
  subst hs'
  subst hf
  rw [renderPass_fst]
  exact ⟨rfl, initialToggleAllValue_eq_true (pruneSelection_subset_catalog _ _)⟩

/-- Closed witness for C8: a render pass over a state whose flag is stale
(false with a full selection) resynchronises it. -/
theorem c8_witness :
    invalidRangeState.selected_devices
        = pruneSelection (deviceCatalog invalidRangeRecords)
            invalidRangeState.selected_devices ∧
    (invalidRangeState.toggle_all_checkbox = true
      ↔ (invalidRangeState.selected_devices = deviceCatalog invalidRangeRecords
          ∧ deviceCatalog invalidRangeRecords ≠ ∅)) :=
  c8_render_prologue_recomputes_flag invalidRangeRecords 20240101 20240101
    invalidRangeState invalidRangeState invalidRangeRecords (by rfl)

/-- The §8 shrink scenario: devices A, B, C over dates 1-2, with C present
only on date 2. -/
def shrinkRecords : List Record :=
  [{ date := 1, device_id := "A", value := 1 },
   { date := 1, device_id := "B", value := 1 },
   { date := 2, device_id := "C", value := 1 }]

/-- Full-catalog selection over dates 1-2: catalog {A, B, C}, all selected,
flag true. -/
def shrinkStateBefore : SessionState :=
  { start_date := 1
    end_date := 2
    selected_devices := {"A", "B", "C"}
    toggle_all_checkbox := true }

/-- The state after narrowing the range to date 1: catalog {A, B}, selection
pruned to {A, B}, flag still true. -/
def shrinkStateAfter : SessionState :=
  { start_date := 1
    end_date := 1
    selected_devices := {"A", "B"}
    toggle_all_checkbox := true }

/-- The records surviving the narrowed range. -/
def shrinkFiltered : List Record :=
  [{ date := 1, device_id := "A", value := 1 },
   { date := 1, device_id := "B", value := 1 }]

/-- Claim C3: a completed `set_date_range` render keeps a selected device
exactly when it is still in the recomputed Device Catalog (removed devices
are dropped, nothing else is), and on the concrete scenario — catalog
{A, B, C} fully selected, narrowed to {A, B} — the resulting selection is
{A, B} with the aggregate flag true. -/
theorem c3_shrink_prunes_exactly_and_scenario (records : List Record)
    (startInput endInput : Int) (s s' : SessionState) (filtered : List Record)
    (h : renderScript records startInput endInput s = Except.ok (s', filtered)) :
    (∀ dev, dev ∈ s'.selected_devices
        ↔ (dev ∈ s.selected_devices ∧ dev ∈ deviceCatalog filtered)) ∧
    renderScript shrinkRecords 1 1 shrinkStateBefore
      = Except.ok (shrinkStateAfter, shrinkFiltered) := by
  constructor
  · obtain ⟨hs', hf⟩ := renderScript_ok_elim h
    subst hs'
    subst hf
    intro dev
    rw [renderPass_fst]
    exact pruneSelection_mem _ _ _
  · rfl

/-- Closed witness for C3: device C, removed from the catalog by the
narrowing, is removed from the selection. -/
theorem c3_witness :
    ("C" ∈ shrinkStateAfter.selected_devices
      ↔ ("C" ∈ shrinkStateBefore.selected_devices
          ∧ "C" ∈ deviceCatalog shrinkFiltered)) :=
  (c3_shrink_prunes_exactly_and_scenario shrinkRecords 1 1 shrinkStateBefore
      shrinkStateAfter shrinkFiltered (by rfl)).1 "C"

/-- Claim C4: after any completed render, the stored (pruned) selection is a
subset of the current Device Catalog, and the rows handed to presentation
(`df_to_plot`) carry only devices of that selection — the effective
selection never escapes the catalog. -/
theorem c4_effective_selection_subset_catalog (records : List Record)
    (startInput endInput : Int) (s s' : SessionState) (filtered : List Record)
    (h : renderScript records startInput endInput s = Except.ok (s', filtered)) :
    s'.selected_devices ⊆ deviceCatalog filtered ∧
    ∀ r ∈ dfToPlot filtered s'.selected_devices, r.device_id ∈ s'.selected_devices := by
  obtain ⟨hs', hf⟩ := renderScript_ok_elim h
  constructor
  · subst hs'
    subst hf
    rw [renderPass_fst]
    exact pruneSelection_subset_catalog _ _
  · intro r hr
    rw [dfToPlot] at hr
    by_cases hsel : s'.selected_devices = (∅ : Finset String)
    · rw [if_pos hsel] at hr
      cases hr
    · rw [if_neg hsel] at hr
      have hmem := List.mem_filter.mp hr
      simpa using hmem.2

/-- Closed witness for C4: the selection the render stored is inside the
catalog of the filtered rows. -/
theorem c4_witness :
    invalidRangeState.selected_devices ⊆ deviceCatalog invalidRangeRecords :=
  (c4_effective_selection_subset_catalog invalidRangeRecords 20240101 20240101
      invalidRangeState invalidRangeState invalidRangeRecords (by rfl)).1

end Feed
